import Mathlib

/-!
Shallow embedding of the tool façade in
`reverse_engineering_assistant/api_server_tools/function_tools.py`.

Each façade operation builds a request message, submits it to the shared
queue, blocks for the delivered response, and shapes the result or raises a
typed error.  Here the transport is modelled by a `backend` function from
request messages to the responses the transport delivers; an operation's
outcome is an `OpResult` recording the requests it submitted (in order) and
either the returned value or the Python exception raised.
-/

/-- Python exception kinds raised by the façade.  `revaToolException` models
`RevaToolException`.  Modelled from the spec: the class body of
`reva_exceptions.RevaToolException` is not among the sources; per the spec's
error taxonomy it is the tool-level error type carrying the backend's text,
distinct from `ValueError` (so the `except ValueError` clause of argument
normalisation does not catch it). -/
inductive PyError where
  | revaToolException (msg : String)
  | valueError (msg : String)
  | assertionError (msg : String)
deriving DecidableEq

/-- Request messages put on the shared queue (`RevaGetDecompilation`,
`RevaGetDefinedFunctionList`, `RevaGetFunctionCount`, `RevaRenameVariable`,
`RevaGetReferences`). -/
inductive RevaMessage where
  | getDecompilation (address : Option Int) (function : Option String)
  | getDefinedFunctionList (page : Int) (page_size : Int)
  | getFunctionCount
  | renameVariable (variable_name : String) (new_name : String) (function_name : String)
  | getReferences (address_or_symbol : String)
deriving DecidableEq

/-- Kind-specific payload of a response message, one case per response
subclass of `RevaMessageResponse`. -/
inductive RespPayload where
  | getDecompilation (function : String) (function_signature : String)
      (address : Int) (decompilation : String) (variables_list : List String)
  | getDefinedFunctionList (function_list : List String)
  | getFunctionCount (function_count : Int)
  | renameVariable
  | getReferences (references_to : List String) (references_from : List String)
deriving DecidableEq

/-- A delivered response: the common envelope's `error_message` plus the
kind-specific payload.  The `assert isinstance(response, RevaMessageResponse)`
in every operation always holds in this model because the type says so. -/
structure RevaMessageResponse where
  error_message : Option String
  payload : RespPayload
deriving DecidableEq

/-- Discriminant of a response payload. -/
inductive MsgKind where
  | getDecompilation
  | getDefinedFunctionList
  | getFunctionCount
  | renameVariable
  | getReferences
deriving DecidableEq

def RespPayload.kind : RespPayload → MsgKind
  | .getDecompilation _ _ _ _ _ => .getDecompilation
  | .getDefinedFunctionList _ => .getDefinedFunctionList
  | .getFunctionCount _ => .getFunctionCount
  | .renameVariable => .renameVariable
  | .getReferences _ _ => .getReferences

/-- Truthiness of `response.error_message` in `if response.error_message:`
(`None` and the empty string are falsy in Python). -/
def hasError (r : RevaMessageResponse) : Bool :=
  match r.error_message with
  | none => false
  | some s => !s.isEmpty

/-- The backend's error text (the argument of
`RevaToolException(response.error_message)`). -/
def errText (r : RevaMessageResponse) : String :=
  match r.error_message with
  | none => ""
  | some s => s

/-! ### Python `int(s, 16)` / `int(s)` and `hex(n)` -/

/-- Hex digits accepted by Python's `int(s, 16)`. -/
def pyIsHexDigit (c : Char) : Bool :=
  c.isDigit || ('a' ≤ c && c ≤ 'f') || ('A' ≤ c && c ≤ 'F')

/-- Value of a hex digit. -/
def pyHexVal (c : Char) : Nat :=
  if c.isDigit then c.toNat - '0'.toNat
  else if 'a' ≤ c && c ≤ 'f' then c.toNat - 'a'.toNat + 10
  else c.toNat - 'A'.toNat + 10

/-- Digits after the first one: single underscores are allowed between
digits, as in Python numeric literals accepted by `int`. -/
def hexDigitsCore : List Char → Nat → Option Nat
  | [], acc => some acc
  | c :: cs, acc =>
    if c = '_' then
      match cs with
      | [] => none
      | c2 :: cs2 =>
        if pyIsHexDigit c2 then hexDigitsCore cs2 (16 * acc + pyHexVal c2) else none
    else if pyIsHexDigit c then hexDigitsCore cs (16 * acc + pyHexVal c) else none

/-- A nonempty run of hex digits, the first of which may not be an
underscore. -/
def hexDigitsStart (l : List Char) : Option Nat :=
  match l with
  | [] => none
  | c :: cs => if pyIsHexDigit c then hexDigitsCore cs (pyHexVal c) else none

/-- After a `0x` marker a single underscore may precede the digits. -/
def hexAfterTag (l : List Char) : Option Nat :=
  match l with
  | [] => none
  | c :: cs => if c = '_' then hexDigitsStart cs else hexDigitsStart (c :: cs)

/-- Digit part of `int(s, 16)`: an optional `0x` / `0X` marker, then hex
digits. -/
def parseHexBody (l : List Char) : Option Nat :=
  match l with
  | c1 :: c2 :: rest =>
    if c1 = '0' && (c2 = 'x' || c2 = 'X') then hexAfterTag rest
    else hexDigitsStart (c1 :: c2 :: rest)
  | _ => hexDigitsStart l

/-- An optional sign in front of the digit part. -/
def parseHexSign (l : List Char) : Option Int :=
  match l with
  | [] => none
  | c :: cs =>
    if c = '+' then (parseHexBody cs).map Int.ofNat
    else if c = '-' then (parseHexBody cs).map (fun n => -(Int.ofNat n))
    else (parseHexBody (c :: cs)).map Int.ofNat

/-- Python `str.strip()` on a character list: drop whitespace at both
ends. -/
def stripChars (l : List Char) : List Char :=
  ((l.dropWhile Char.isWhitespace).reverse.dropWhile Char.isWhitespace).reverse

/-- Python `int(s, 16)`: `some n` when the call returns `n`, `none` when it
raises `ValueError`. -/
def pyIntBase16 (s : String) : Option Int :=
  parseHexSign (stripChars s.data)

/-- Decimal digits after the first one, underscores allowed between
digits. -/
def decDigitsCore : List Char → Nat → Option Nat
  | [], acc => some acc
  | c :: cs, acc =>
    if c = '_' then
      match cs with
      | [] => none
      | c2 :: cs2 =>
        if c2.isDigit then decDigitsCore cs2 (10 * acc + (c2.toNat - '0'.toNat)) else none
    else if c.isDigit then decDigitsCore cs (10 * acc + (c.toNat - '0'.toNat)) else none

/-- A nonempty run of decimal digits. -/
def decDigitsStart (l : List Char) : Option Nat :=
  match l with
  | [] => none
  | c :: cs => if c.isDigit then decDigitsCore cs (c.toNat - '0'.toNat) else none

/-- An optional sign in front of the decimal digits. -/
def parseDecSign (l : List Char) : Option Int :=
  match l with
  | [] => none
  | c :: cs =>
    if c = '+' then (decDigitsStart cs).map Int.ofNat
    else if c = '-' then (decDigitsStart cs).map (fun n => -(Int.ofNat n))
    else (decDigitsStart (c :: cs)).map Int.ofNat

/-- Python `int(s)` (base 10): `some n` on success, `none` on
`ValueError`. -/
def pyIntBase10 (s : String) : Option Int :=
  parseDecSign (stripChars s.data)

/-- Hex digit list of `n`, most significant first.  The first argument is
fuel; `n` itself is always enough fuel, which `hexDigitsN` supplies. -/
def hexDigitsFuel : Nat → Nat → List Char
  | 0, n => [Nat.digitChar n]
  | fuel + 1, n =>
    if n < 16 then [Nat.digitChar n]
    else hexDigitsFuel fuel (n / 16) ++ [Nat.digitChar (n % 16)]

/-- Hex digit list of `n`, most significant first. -/
def hexDigitsN (n : Nat) : List Char :=
  hexDigitsFuel n n

/-- Python `hex(a)`: `0x` plus lowercase hex digits, with a leading minus
sign for negative numbers. -/
def pyHex (a : Int) : String :=
  if a < 0 then String.mk ('-' :: '0' :: 'x' :: hexDigitsN a.natAbs)
  else String.mk ('0' :: 'x' :: hexDigitsN a.toNat)

/-! ### The tool façade operations -/

/-- Outcome of one façade operation: the request messages it put on the
shared queue, in order, and the value returned or the exception raised. -/
structure OpResult (α : Type) where
  sent : List RevaMessage
  out : Except PyError α

/-- Caller-facing mapping returned by `get_decompilation_for_function`. -/
structure DecompResult where
  function : String
  function_signature : String
  address : String
  decompilation : String
  variables_list : List String
deriving DecidableEq

/-- Caller-facing mapping returned by `get_references`. -/
structure RefsResult where
  references_to : List String
  references_from : List String
deriving DecidableEq

/-- Argument normalisation at the top of `get_decompilation_for_function`:
`address = int(arg, 16)` inside `try`, raising `RevaToolException` when the
parsed address is not positive; on `ValueError` the argument becomes the
function name. -/
def normalizeDecompArg (s : String) : Except PyError (Option Int × Option String) :=
  match pyIntBase16 s with
  | some a =>
    if a ≤ 0 then .error (.revaToolException ("Address must be > 0 and in hex format"))
    else .ok (some a, none)
  | none => .ok (none, some s)

/-- `RevaDecompilationIndex.get_decompilation_for_function` on a string
argument: normalise, check the neither-address-nor-name branch, submit,
inspect `error_message`, validate the response kind, shape the mapping
(formatting the response's address with `hex`). -/
def get_decompilation_for_function (s : String)
    (backend : RevaMessage → RevaMessageResponse) : OpResult DecompResult :=
  match normalizeDecompArg s with
  | .error e => ⟨[], .error e⟩
  | .ok (address, name) =>
    if address = none ∧ name = none then
      ⟨[], .error (.revaToolException
        ("function_name_or_address must be an address or function name"))⟩
    else
      let req := RevaMessage.getDecompilation address name
      let r := backend req
      if hasError r then ⟨[req], .error (.revaToolException (errText r))⟩
      else
        match r.payload with
        | .getDecompilation f sig a d v => ⟨[req], .ok ⟨f, sig, pyHex a, d, v⟩⟩
        | _ => ⟨[req], .error (.valueError
            ("Expected a RevaGetDecompilationResponse, got another response kind"))⟩

/-- A `page` / `page_size` argument, which the caller may pass as an integer
or as a numeric string. -/
inductive PyVal where
  | int (n : Int)
  | str (s : String)
deriving DecidableEq

/-- The `if isinstance(x, str): x = int(x)` coercion applied to `page` and
`page_size`. -/
def coerceIntArg (v : PyVal) : Except PyError Int :=
  match v with
  | .int n => .ok n
  | .str s =>
    match pyIntBase10 s with
    | some n => .ok n
    | none => .error (.valueError ("invalid literal for int() with base 10: " ++ s))

/-- `RevaDecompilationIndex.get_defined_function_list_paginated`: coerce the
arguments, reject `page == 0` locally, submit, inspect `error_message`, then
validate the response kind (raising `RevaToolException` on mismatch). -/
def get_defined_function_list_paginated (page : PyVal) (page_size : PyVal)
    (backend : RevaMessage → RevaMessageResponse) : OpResult (List String) :=
  match coerceIntArg page with
  | .error e => ⟨[], .error e⟩
  | .ok p =>
    match coerceIntArg page_size with
    | .error e => ⟨[], .error e⟩
    | .ok ps =>
      if p = 0 then
        ⟨[], .error (.valueError ("`page` is 1 indexed, page cannot be 0"))⟩
      else
        let req := RevaMessage.getDefinedFunctionList p ps
        let r := backend req
        if hasError r then ⟨[req], .error (.revaToolException (errText r))⟩
        else
          match r.payload with
          | .getDefinedFunctionList fl => ⟨[req], .ok fl⟩
          | _ => ⟨[req], .error (.revaToolException
              ("Expected a RevaGetDefinedFunctionListResponse, got another response kind"))⟩

/-- `RevaDecompilationIndex.get_defined_function_count`: submit, inspect
`error_message`, validate the response kind (`ValueError` on mismatch). -/
def get_defined_function_count
    (backend : RevaMessage → RevaMessageResponse) : OpResult Int :=
  let req := RevaMessage.getFunctionCount
  let r := backend req
  if hasError r then ⟨[req], .error (.revaToolException (errText r))⟩
  else
    match r.payload with
    | .getFunctionCount n => ⟨[req], .ok n⟩
    | _ => ⟨[req], .error (.valueError
        ("Expected a RevaGetFunctionCountResponse, got another response kind"))⟩

/-- `RevaRenameFunctionVariable.rename_variable_in_function`: build the
rename request from the old name, submit, inspect `error_message`, and
return the confirmation string.  There is no local validation of the
arguments and no response-kind validation. -/
def rename_variable_in_function (new_name : String) (old_name : String)
    (containing_function : String)
    (backend : RevaMessage → RevaMessageResponse) : OpResult String :=
  let req := RevaMessage.renameVariable old_name new_name containing_function
  let r := backend req
  if hasError r then ⟨[req], .error (.revaToolException (errText r))⟩
  else ⟨[req], .ok ("Renamed " ++ old_name ++ " to " ++ new_name ++ " in " ++
    containing_function)⟩

/-- `RevaRenameFunctionVariable.rename_multiple_variables_in_function`: the
mapping's entries (insertion order) are renamed one by one, appending each
confirmation to `outputs`; an exception from a single rename propagates,
discarding `outputs`. -/
def rename_multiple_variables_in_function (new_names : List (String × String))
    (containing_function : String)
    (backend : RevaMessage → RevaMessageResponse) : OpResult (List String) :=
  match new_names with
  | [] => ⟨[], .ok []⟩
  | (old_name, new_name) :: rest =>
    let first := rename_variable_in_function new_name old_name containing_function backend
    match first.out with
    | .error e => ⟨first.sent, .error e⟩
    | .ok msg =>
      let restResult := rename_multiple_variables_in_function rest containing_function backend
      match restResult.out with
      | .error e => ⟨first.sent ++ restResult.sent, .error e⟩
      | .ok msgs => ⟨first.sent ++ restResult.sent, .ok (msg :: msgs)⟩

/-- `RevaCrossReferenceTool.get_references`: build the request (no local
validation), submit, inspect `error_message`, validate the response kind
(`assert isinstance`, an `AssertionError` on mismatch), shape the mapping. -/
def get_references (address_or_symbol : String)
    (backend : RevaMessage → RevaMessageResponse) : OpResult RefsResult :=
  let req := RevaMessage.getReferences address_or_symbol
  let r := backend req
  if hasError r then ⟨[req], .error (.revaToolException (errText r))⟩
  else
    match r.payload with
    | .getReferences rto rfrom => ⟨[req], .ok ⟨rto, rfrom⟩⟩
    | _ => ⟨[req], .error (.assertionError
        ("Expected a RevaGetReferencesResponse, got another response kind"))⟩

/-! ### Concrete responses and backends used by witnesses and counterexamples -/

/-- A rename response with no error. -/
def okRenameResp : RevaMessageResponse := ⟨none, .renameVariable⟩

/-- A rename response whose envelope carries the backend error text
`boom`. -/
def boomRenameResp : RevaMessageResponse := ⟨some ("boom"), .renameVariable⟩

/-- A backend that fails a rename exactly when the old variable name is `c`
and answers every other request without error. -/
def failOnCBackend : RevaMessage → RevaMessageResponse := fun m =>
  match m with
  | .renameVariable v _ _ => if v = "c" then boomRenameResp else okRenameResp
  | _ => okRenameResp

/-- A backend that answers every request with the same response. -/
def constBackend (r : RevaMessageResponse) : RevaMessage → RevaMessageResponse :=
  fun _ => r

/-- An errorless function-count response (the wrong kind for every other
operation). -/
def countResp5 : RevaMessageResponse := ⟨none, .getFunctionCount 5⟩

/-- An errorless function-list response with a single entry. -/
def functionListRespMain : RevaMessageResponse :=
  ⟨none, .getDefinedFunctionList ["main"]⟩

/-- An errorless references response with two empty lists. -/
def emptyRefsResp : RevaMessageResponse := ⟨none, .getReferences [] []⟩

/-- An errorless decompilation response whose address is 17. -/
def decompResp17 : RevaMessageResponse :=
  ⟨none, .getDecompilation ("f") ("sig") 17 ("code") []⟩

example : pyIntBase16 ("10") = some 16 := by decide
example : pyIntBase16 ("deadbeef") = some 3735928559 := by decide
example : pyIntBase16 ("") = none := by decide
example : pyIntBase16 ("0x1f") = some 31 := by decide
example : pyIntBase16 (" -0x1f ") = some (-31) := by decide
example : pyIntBase16 ("main") = none := by decide
example : pyIntBase10 ("0") = some 0 := by decide
example : pyHex 17 = "0x11" := by decide
example : pyHex (-5) = "-0x5" := by decide
example : pyHex 0 = "0x0" := by decide

/-! ### Parser and printer lemmas -/

theorem pyHexVal_digitChar : ∀ m, m < 16 → pyHexVal (Nat.digitChar m) = m := by
  decide

theorem pyIsHexDigit_digitChar : ∀ m, m < 16 → pyIsHexDigit (Nat.digitChar m) = true := by
  decide

theorem digitChar_not_ws : ∀ m, m < 16 → (Nat.digitChar m).isWhitespace = false := by
  decide

theorem hexDigit_ne_underscore {c : Char} (h : pyIsHexDigit c = true) : ¬ c = '_' := by
  intro hc
  subst hc
  exact absurd h (by decide)

theorem hexDigitsCore_all_hex : ∀ (l : List Char) (acc : Nat),
    (∀ c ∈ l, pyIsHexDigit c = true) →
    hexDigitsCore l acc = some (l.foldl (fun a c => 16 * a + pyHexVal c) acc) := by
  intro l
  induction l with
  | nil => intro acc _; rfl
  | cons c cs ih =>
    intro acc h
    have hc : pyIsHexDigit c = true := h c (List.mem_cons_self c cs)
    have hcu : ¬ c = '_' := hexDigit_ne_underscore hc
    simp only [List.foldl_cons]
    conv_lhs => unfold hexDigitsCore
    rw [if_neg hcu, if_pos hc]
    exact ih (16 * acc + pyHexVal c) (fun d hd => h d (List.mem_cons_of_mem c hd))

theorem hexDigitsStart_all_hex (l : List Char) (hne : l ≠ [])
    (h : ∀ c ∈ l, pyIsHexDigit c = true) :
    hexDigitsStart l = some (l.foldl (fun a c => 16 * a + pyHexVal c) 0) := by
  cases l with
  | nil => exact absurd rfl hne
  | cons c cs =>
    have hc : pyIsHexDigit c = true := h c (List.mem_cons_self c cs)
    simp only [hexDigitsStart, if_pos hc, List.foldl_cons,
      hexDigitsCore_all_hex cs (pyHexVal c) (fun d hd => h d (List.mem_cons_of_mem c hd))]
    norm_num

theorem hexDigitsFuel_ne_nil (fuel n : Nat) : hexDigitsFuel fuel n ≠ [] := by
  cases fuel with
  | zero => simp [hexDigitsFuel]
  | succ f =>
    by_cases h : n < 16
    · simp [hexDigitsFuel, h]
    · simp [hexDigitsFuel, h]

theorem hexDigitsFuel_all_hex : ∀ (fuel n : Nat), n ≤ fuel →
    ∀ c ∈ hexDigitsFuel fuel n, pyIsHexDigit c = true := by
  intro fuel
  induction fuel with
  | zero =>
    intro n hn c hc
    have h0 : n = 0 := Nat.le_zero.mp hn
    subst h0
    simp only [hexDigitsFuel, List.mem_singleton] at hc
    subst hc
    decide
  | succ f ih =>
    intro n hn c hc
    by_cases h : n < 16
    · simp only [hexDigitsFuel, if_pos h, List.mem_singleton] at hc
      subst hc
      exact pyIsHexDigit_digitChar n h
    · simp only [hexDigitsFuel, if_neg h, List.mem_append, List.mem_singleton] at hc
      rcases hc with hc | hc
      · exact ih (n / 16) (by omega) c hc
      · subst hc
        exact pyIsHexDigit_digitChar _ (Nat.mod_lt n (by omega))

theorem hexDigitsFuel_foldl : ∀ (fuel n : Nat), n ≤ fuel →
    (hexDigitsFuel fuel n).foldl (fun a c => 16 * a + pyHexVal c) 0 = n := by
  intro fuel
  induction fuel with
  | zero =>
    intro n hn
    have h0 : n = 0 := Nat.le_zero.mp hn
    subst h0
    decide
  | succ f ih =>
    intro n hn
    by_cases h : n < 16
    · simp only [hexDigitsFuel, if_pos h, List.foldl_cons, List.foldl_nil]
      rw [pyHexVal_digitChar n h]
      omega
    · simp only [hexDigitsFuel, if_neg h, List.foldl_append, List.foldl_cons,
        List.foldl_nil]
      rw [ih (n / 16) (by omega), pyHexVal_digitChar (n % 16) (Nat.mod_lt n (by omega))]
      omega

theorem hexDigitsStart_hexDigitsN (n : Nat) : hexDigitsStart (hexDigitsN n) = some n := by
  rw [hexDigitsN, hexDigitsStart_all_hex _ (hexDigitsFuel_ne_nil n n)
    (hexDigitsFuel_all_hex n n (Nat.le_refl n)), hexDigitsFuel_foldl n n (Nat.le_refl n)]

theorem hexDigitsFuel_reverse (fuel n : Nat) (h : n ≤ fuel) :
    ∃ k rest, k < 16 ∧ (hexDigitsFuel fuel n).reverse = Nat.digitChar k :: rest := by
  cases fuel with
  | zero =>
    have h0 : n = 0 := Nat.le_zero.mp h
    subst h0
    exact ⟨0, [], by omega, by decide⟩
  | succ f =>
    by_cases h16 : n < 16
    · exact ⟨n, [], h16, by simp [hexDigitsFuel, h16]⟩
    · refine ⟨n % 16, (hexDigitsFuel f (n / 16)).reverse, Nat.mod_lt n (by omega), ?_⟩
      simp [hexDigitsFuel, h16]

theorem stripChars_eq_self {l : List Char}
    (h1 : ∀ c, l.head? = some c → c.isWhitespace = false)
    (h2 : ∀ c, l.reverse.head? = some c → c.isWhitespace = false) :
    stripChars l = l := by
  cases l with
  | nil => rfl
  | cons a t =>
    have ha : a.isWhitespace = false := h1 a rfl
    unfold stripChars
    rw [List.dropWhile_cons, ha]
    simp only [Bool.false_eq_true, if_false]
    cases hr : (a :: t).reverse with
    | nil => exact absurd hr (by simp)
    | cons b r =>
      have hb : b.isWhitespace = false := h2 b (by rw [hr]; rfl)
      rw [List.dropWhile_cons, hb]
      simp only [Bool.false_eq_true, if_false]
      rw [← hr, List.reverse_reverse]

theorem hexDigitsN_ne_nil (n : Nat) : hexDigitsN n ≠ [] :=
  hexDigitsFuel_ne_nil n n

theorem hexDigitsN_all_hex (n : Nat) : ∀ c ∈ hexDigitsN n, pyIsHexDigit c = true :=
  hexDigitsFuel_all_hex n n (Nat.le_refl n)

theorem hexDigitsN_reverse (n : Nat) :
    ∃ k rest, k < 16 ∧ (hexDigitsN n).reverse = Nat.digitChar k :: rest := by
  unfold hexDigitsN
  exact hexDigitsFuel_reverse n n (Nat.le_refl n)

theorem parseHexBody_marker (ds : List Char) (hne : ds ≠ [])
    (hall : ∀ c ∈ ds, pyIsHexDigit c = true) :
    parseHexBody ('0' :: 'x' :: ds) = hexDigitsStart ds := by
  cases ds with
  | nil => exact absurd rfl hne
  | cons d ds' =>
    have hd : pyIsHexDigit d = true := hall d (List.mem_cons_self d ds')
    have hdu : ¬ d = '_' := hexDigit_ne_underscore hd
    show (if d = '_' then hexDigitsStart ds' else hexDigitsStart (d :: ds'))
      = hexDigitsStart (d :: ds')
    rw [if_neg hdu]

theorem parseHexSign_nosign (c : Char) (cs : List Char)
    (hplus : ¬ c = '+') (hminus : ¬ c = '-') :
    parseHexSign (c :: cs) = (parseHexBody (c :: cs)).map Int.ofNat := by
  show (if c = '+' then (parseHexBody cs).map Int.ofNat
    else if c = '-' then (parseHexBody cs).map (fun n => -(Int.ofNat n))
    else (parseHexBody (c :: cs)).map Int.ofNat)
      = (parseHexBody (c :: cs)).map Int.ofNat
  rw [if_neg hplus, if_neg hminus]

theorem parseHexSign_minus (cs : List Char) :
    parseHexSign ('-' :: cs) = (parseHexBody cs).map (fun n => -(Int.ofNat n)) := rfl

theorem pyHex_data_nonneg {a : Int} (h : 0 ≤ a) :
    (pyHex a).data = '0' :: 'x' :: hexDigitsN a.toNat := by
  unfold pyHex
  rw [if_neg (by omega)]

theorem pyHex_data_neg {a : Int} (h : a < 0) :
    (pyHex a).data = '-' :: '0' :: 'x' :: hexDigitsN a.natAbs := by
  unfold pyHex
  rw [if_pos h]

theorem stripChars_pyHex_nonneg (n : Nat) :
    stripChars ('0' :: 'x' :: hexDigitsN n) = '0' :: 'x' :: hexDigitsN n := by
  obtain ⟨k, rest, hk, hrev⟩ := hexDigitsN_reverse n
  apply stripChars_eq_self
  · intro c hc
    simp only [List.head?_cons, Option.some.injEq] at hc
    subst hc
    decide
  · intro c hc
    have hrw : ('0' :: 'x' :: hexDigitsN n).reverse
        = Nat.digitChar k :: (rest ++ ['x', '0']) := by
      rw [List.reverse_cons, List.reverse_cons, hrev]
      simp
    rw [hrw] at hc
    simp only [List.head?_cons, Option.some.injEq] at hc
    subst hc
    exact digitChar_not_ws k hk

theorem stripChars_pyHex_neg (n : Nat) :
    stripChars ('-' :: '0' :: 'x' :: hexDigitsN n) = '-' :: '0' :: 'x' :: hexDigitsN n := by
  obtain ⟨k, rest, hk, hrev⟩ := hexDigitsN_reverse n
  apply stripChars_eq_self
  · intro c hc
    simp only [List.head?_cons, Option.some.injEq] at hc
    subst hc
    decide
  · intro c hc
    have hrw : ('-' :: '0' :: 'x' :: hexDigitsN n).reverse
        = Nat.digitChar k :: (rest ++ ['x', '0', '-']) := by
      rw [List.reverse_cons, List.reverse_cons, List.reverse_cons, hrev]
      simp
    rw [hrw] at hc
    simp only [List.head?_cons, Option.some.injEq] at hc
    subst hc
    exact digitChar_not_ws k hk

/-- Round trip of the façade's address formatting: `int(hex(a), 16)`
returns `a`. -/
theorem pyIntBase16_pyHex (a : Int) : pyIntBase16 (pyHex a) = some a := by
  by_cases ha : a < 0
  · unfold pyIntBase16
    rw [pyHex_data_neg ha, stripChars_pyHex_neg, parseHexSign_minus,
      parseHexBody_marker _ (hexDigitsN_ne_nil _) (hexDigitsN_all_hex _),
      hexDigitsStart_hexDigitsN]
    simp only [Option.map_some']
    exact congrArg some (by simp only [Int.ofNat_eq_coe]; omega)
  · unfold pyIntBase16
    rw [pyHex_data_nonneg (by omega), stripChars_pyHex_nonneg,
      parseHexSign_nosign ('0') _ (by decide) (by decide),
      parseHexBody_marker _ (hexDigitsN_ne_nil _) (hexDigitsN_all_hex _),
      hexDigitsStart_hexDigitsN]
    simp only [Option.map_some']
    exact congrArg some (by simp only [Int.ofNat_eq_coe]; omega)

/-! ### Response-envelope helper lemmas -/

theorem hasError_eq_true {r : RevaMessageResponse} {e : String}
    (h : r.error_message = some e) (he : e ≠ "") : hasError r = true := by
  have h' : hasError r = !e.isEmpty := by
    unfold hasError
    rw [h]
  rw [h']
  cases hb : e.isEmpty with
  | true => exact absurd ((String.isEmpty_iff e).mp hb) he
  | false => rfl

theorem errText_eq {r : RevaMessageResponse} {e : String}
    (h : r.error_message = some e) : errText r = e := by
  unfold errText
  rw [h]

theorem hasError_false_of_none {r : RevaMessageResponse}
    (h : r.error_message = none) : hasError r = false := by
  unfold hasError
  rw [h]

theorem coerceIntArg_error {v : PyVal} {e : PyError}
    (h : coerceIntArg v = .error e) : ∃ m, e = .valueError m := by
  cases v with
  | int n => exact Except.noConfusion h
  | str s =>
    have h' : (match pyIntBase10 s with
        | some n => (Except.ok n : Except PyError Int)
        | none => Except.error (.valueError ("invalid literal for int() with base 10: " ++ s)))
          = Except.error e := h
    cases hs : pyIntBase10 s with
    | none =>
      rw [hs] at h'
      simp only [Except.error.injEq] at h'
      exact ⟨"invalid literal for int() with base 10: " ++ s, h'.symm⟩
    | some n =>
      rw [hs] at h'
      exact Except.noConfusion h'

/-! ### Per-operation unfolding lemmas -/

theorem count_eq (backend : RevaMessage → RevaMessageResponse) :
    get_defined_function_count backend
      = if hasError (backend RevaMessage.getFunctionCount) then
          ⟨[RevaMessage.getFunctionCount],
            .error (.revaToolException (errText (backend RevaMessage.getFunctionCount)))⟩
        else
          match (backend RevaMessage.getFunctionCount).payload with
          | .getFunctionCount n => ⟨[RevaMessage.getFunctionCount], .ok n⟩
          | _ => ⟨[RevaMessage.getFunctionCount], .error (.valueError
              ("Expected a RevaGetFunctionCountResponse, got another response kind"))⟩ := rfl

theorem rename_eq (new_name old_name cf : String)
    (backend : RevaMessage → RevaMessageResponse) :
    rename_variable_in_function new_name old_name cf backend
      = if hasError (backend (RevaMessage.renameVariable old_name new_name cf)) then
          ⟨[RevaMessage.renameVariable old_name new_name cf],
            .error (.revaToolException
              (errText (backend (RevaMessage.renameVariable old_name new_name cf))))⟩
        else
          ⟨[RevaMessage.renameVariable old_name new_name cf],
            .ok ("Renamed " ++ old_name ++ " to " ++ new_name ++ " in " ++ cf)⟩ := rfl

theorem refs_eq (aos : String) (backend : RevaMessage → RevaMessageResponse) :
    get_references aos backend
      = if hasError (backend (RevaMessage.getReferences aos)) then
          ⟨[RevaMessage.getReferences aos],
            .error (.revaToolException (errText (backend (RevaMessage.getReferences aos))))⟩
        else
          match (backend (RevaMessage.getReferences aos)).payload with
          | .getReferences rto rfrom => ⟨[RevaMessage.getReferences aos], .ok ⟨rto, rfrom⟩⟩
          | _ => ⟨[RevaMessage.getReferences aos], .error (.assertionError
              ("Expected a RevaGetReferencesResponse, got another response kind"))⟩ := rfl

theorem list_int_eq (p ps : Int) (backend : RevaMessage → RevaMessageResponse) :
    get_defined_function_list_paginated (.int p) (.int ps) backend
      = if p = 0 then
          ⟨[], .error (.valueError ("`page` is 1 indexed, page cannot be 0"))⟩
        else if hasError (backend (RevaMessage.getDefinedFunctionList p ps)) then
          ⟨[RevaMessage.getDefinedFunctionList p ps],
            .error (.revaToolException
              (errText (backend (RevaMessage.getDefinedFunctionList p ps))))⟩
        else
          match (backend (RevaMessage.getDefinedFunctionList p ps)).payload with
          | .getDefinedFunctionList fl => ⟨[RevaMessage.getDefinedFunctionList p ps], .ok fl⟩
          | _ => ⟨[RevaMessage.getDefinedFunctionList p ps], .error (.revaToolException
              ("Expected a RevaGetDefinedFunctionListResponse, got another response kind"))⟩ := rfl

theorem decomp_addr_eq {s : String} {a : Int} (ha : pyIntBase16 s = some a)
    (hpos : 0 < a) (backend : RevaMessage → RevaMessageResponse) :
    get_decompilation_for_function s backend
      = if hasError (backend (RevaMessage.getDecompilation (some a) none)) then
          ⟨[RevaMessage.getDecompilation (some a) none],
            .error (.revaToolException
              (errText (backend (RevaMessage.getDecompilation (some a) none))))⟩
        else
          match (backend (RevaMessage.getDecompilation (some a) none)).payload with
          | .getDecompilation f sig addr d v =>
            ⟨[RevaMessage.getDecompilation (some a) none], .ok ⟨f, sig, pyHex addr, d, v⟩⟩
          | _ =>
            ⟨[RevaMessage.getDecompilation (some a) none], .error (.valueError
              ("Expected a RevaGetDecompilationResponse, got another response kind"))⟩ := by
  have hnorm : normalizeDecompArg s = .ok (some a, none) := by
    simp only [normalizeDecompArg, ha]
    rw [if_neg (by omega)]
  simp only [get_decompilation_for_function, hnorm]
  rw [if_neg (by simp)]

theorem decomp_name_eq {s : String} (hs : pyIntBase16 s = none)
    (backend : RevaMessage → RevaMessageResponse) :
    get_decompilation_for_function s backend
      = if hasError (backend (RevaMessage.getDecompilation none (some s))) then
          ⟨[RevaMessage.getDecompilation none (some s)],
            .error (.revaToolException
              (errText (backend (RevaMessage.getDecompilation none (some s)))))⟩
        else
          match (backend (RevaMessage.getDecompilation none (some s))).payload with
          | .getDecompilation f sig addr d v =>
            ⟨[RevaMessage.getDecompilation none (some s)], .ok ⟨f, sig, pyHex addr, d, v⟩⟩
          | _ =>
            ⟨[RevaMessage.getDecompilation none (some s)], .error (.valueError
              ("Expected a RevaGetDecompilationResponse, got another response kind"))⟩ := by
  have hnorm : normalizeDecompArg s = .ok (none, some s) := by
    simp only [normalizeDecompArg, hs]
  simp only [get_decompilation_for_function, hnorm]
  rw [if_neg (by simp)]

theorem rename_multiple_cons (qo qn : String) (rest : List (String × String))
    (cf : String) (backend : RevaMessage → RevaMessageResponse) :
    rename_multiple_variables_in_function ((qo, qn) :: rest) cf backend
      = (match (rename_variable_in_function qn qo cf backend).out with
         | .error e => ⟨(rename_variable_in_function qn qo cf backend).sent, .error e⟩
         | .ok msg =>
           match (rename_multiple_variables_in_function rest cf backend).out with
           | .error e => ⟨(rename_variable_in_function qn qo cf backend).sent
               ++ (rename_multiple_variables_in_function rest cf backend).sent, .error e⟩
           | .ok msgs => ⟨(rename_variable_in_function qn qo cf backend).sent
               ++ (rename_multiple_variables_in_function rest cf backend).sent,
               .ok (msg :: msgs)⟩) := rfl

/-! ### Claim theorems -/

/-- C1: for every tool operation (get decompilation — by address or by name —,
list functions, count functions, rename variable, get references), a delivered
response carrying a non-empty error description makes the operation raise
`RevaToolException` with exactly the backend's error text, regardless of the
response's payload kind: the error check precedes the response-kind
validation and any payload use. -/
theorem c1_backend_error_takes_precedence
    (r : RevaMessageResponse) (e : String)
    (herr : r.error_message = some e) (he : e ≠ "")
    (s t aos new_name old_name cf : String) (a p ps : Int)
    (ha : pyIntBase16 s = some a) (hpos : 0 < a) (ht : pyIntBase16 t = none)
    (hp : p ≠ 0) :
    (get_decompilation_for_function s (constBackend r)).out
      = .error (.revaToolException e) ∧
    (get_decompilation_for_function t (constBackend r)).out
      = .error (.revaToolException e) ∧
    (get_defined_function_list_paginated (.int p) (.int ps) (constBackend r)).out
      = .error (.revaToolException e) ∧
    (get_defined_function_count (constBackend r)).out
      = .error (.revaToolException e) ∧
    (rename_variable_in_function new_name old_name cf (constBackend r)).out
      = .error (.revaToolException e) ∧
    (get_references aos (constBackend r)).out
      = .error (.revaToolException e) := by
  have hhe : hasError r = true := hasError_eq_true herr he
  have het : errText r = e := errText_eq herr
  refine ⟨?_, ?_, ?_, ?_, ?_, ?_⟩
  · rw [decomp_addr_eq ha hpos]
    simp [constBackend, hhe, het]
  · rw [decomp_name_eq ht]
    simp [constBackend, hhe, het]
  · rw [list_int_eq]
    simp [constBackend, hhe, het, hp]
  · rw [count_eq]
    simp [constBackend, hhe, het]
  · rw [rename_eq]
    simp [constBackend, hhe, het]
  · rw [refs_eq]
    simp [constBackend, hhe, het]

theorem c1_backend_error_takes_precedence_witness :
    (get_decompilation_for_function ("10") (constBackend boomRenameResp)).out
      = .error (.revaToolException ("boom")) ∧
    (get_decompilation_for_function ("main") (constBackend boomRenameResp)).out
      = .error (.revaToolException ("boom")) ∧
    (get_defined_function_list_paginated (.int 1) (.int 20)
        (constBackend boomRenameResp)).out = .error (.revaToolException ("boom")) ∧
    (get_defined_function_count (constBackend boomRenameResp)).out
      = .error (.revaToolException ("boom")) ∧
    (rename_variable_in_function ("b") ("a") ("F") (constBackend boomRenameResp)).out
      = .error (.revaToolException ("boom")) ∧
    (get_references ("sym") (constBackend boomRenameResp)).out
      = .error (.revaToolException ("boom")) :=
  c1_backend_error_takes_precedence boomRenameResp ("boom") rfl (by decide)
    ("10") ("main") ("sym") ("b") ("a") ("F") 16 1 20
    (by decide) (by decide) (by decide) (by decide)

/-- C3: when every per-entry rename succeeds, the batch rename returns one
confirmation string per mapping entry, in the mapping's iteration order,
with the entry old ↦ new in function F rendered as
`Renamed old to new in F` (and it submits one rename request per entry). -/
theorem c3_batch_all_success
    (new_names : List (String × String)) (cf : String)
    (backend : RevaMessage → RevaMessageResponse)
    (hok : ∀ m, hasError (backend m) = false) :
    rename_multiple_variables_in_function new_names cf backend
      = ⟨new_names.map (fun q => RevaMessage.renameVariable q.1 q.2 cf),
         .ok (new_names.map
           (fun q => "Renamed " ++ q.1 ++ " to " ++ q.2 ++ " in " ++ cf))⟩ := by
  have hre : ∀ nn od : String, rename_variable_in_function nn od cf backend
      = ⟨[RevaMessage.renameVariable od nn cf],
         .ok ("Renamed " ++ od ++ " to " ++ nn ++ " in " ++ cf)⟩ := by
    intro nn od
    rw [rename_eq, if_neg (by simp [hok])]
  induction new_names with
  | nil => rfl
  | cons q rest ih =>
    obtain ⟨qo, qn⟩ := q
    rw [rename_multiple_cons, hre qn qo, ih]
    simp

theorem c3_batch_all_success_witness :
    rename_multiple_variables_in_function [("a", "b"), ("c", "d")] ("F")
        (constBackend okRenameResp)
      = ⟨[RevaMessage.renameVariable ("a") ("b") ("F"),
          RevaMessage.renameVariable ("c") ("d") ("F")],
         .ok (["Renamed a to b in F", "Renamed c to d in F"])⟩ :=
  c3_batch_all_success [("a", "b"), ("c", "d")] ("F") (constBackend okRenameResp)
    (fun _ => rfl)

/-- C2 counterexample: on the batch {a ↦ b, c ↦ d} in function F where the
backend fails the second rename with text `boom`, the operation's outcome is
the bare `RevaToolException ("boom")`: the first entry's confirmation string
is discarded, not reported alongside the error, contradicting the claim that
the outcome reports the earlier entries' success results. -/
theorem c2_counterexample :
    rename_multiple_variables_in_function [("a", "b"), ("c", "d")] ("F") failOnCBackend
      = ⟨[RevaMessage.renameVariable ("a") ("b") ("F"),
          RevaMessage.renameVariable ("c") ("d") ("F")],
         .error (.revaToolException ("boom"))⟩ := rfl

/-- C2 amended: when every entry before the k-th succeeds and the k-th
entry's rename fails, the batch submits exactly the first k+1 rename
requests (sequential abort: entries after the failing one are not attempted)
and raises the failing entry's backend error; the earlier entries'
confirmation strings are discarded rather than reported. -/
theorem c2_batch_abort_amended
    (pre : List (String × String)) (o n cf : String) (post : List (String × String))
    (backend : RevaMessage → RevaMessageResponse)
    (hpre : ∀ q ∈ pre, hasError (backend (RevaMessage.renameVariable q.1 q.2 cf)) = false)
    (hfail : hasError (backend (RevaMessage.renameVariable o n cf)) = true) :
    rename_multiple_variables_in_function (pre ++ (o, n) :: post) cf backend
      = ⟨(pre ++ [(o, n)]).map (fun q => RevaMessage.renameVariable q.1 q.2 cf),
         .error (.revaToolException
           (errText (backend (RevaMessage.renameVariable o n cf))))⟩ := by
  induction pre with
  | nil =>
    rw [List.nil_append, rename_multiple_cons, rename_eq, if_pos hfail]
    rfl
  | cons q pre' ih =>
    obtain ⟨qo, qn⟩ := q
    have hq : hasError (backend (RevaMessage.renameVariable qo qn cf)) = false :=
      hpre (qo, qn) (List.mem_cons_self _ _)
    have ih' := ih (fun q hqmem => hpre q (List.mem_cons_of_mem _ hqmem))
    rw [List.cons_append, rename_multiple_cons, rename_eq, if_neg (by simp [hq]), ih']
    simp

theorem c2_batch_abort_amended_witness :
    rename_multiple_variables_in_function [("a", "b"), ("c", "d"), ("e", "f")] ("F")
        failOnCBackend
      = ⟨[RevaMessage.renameVariable ("a") ("b") ("F"),
          RevaMessage.renameVariable ("c") ("d") ("F")],
         .error (.revaToolException ("boom"))⟩ :=
  c2_batch_abort_amended [("a", "b")] ("c") ("d") ("F") [("e", "f")] failOnCBackend
    (by decide) (by decide)

/-- C4 counterexample: delivered a response of the wrong kind (a function
count) carrying no error description, `rename_variable_in_function` does not
fail at all — it returns its confirmation string — contradicting the claim
that every tool operation fails with a hard protocol-mismatch error on a
wrong-kind, errorless response. -/
theorem c4_counterexample :
    (rename_variable_in_function ("b") ("a") ("F") (constBackend countResp5)).out
      = .ok ("Renamed a to b in F") := rfl

/-- C4 amended: on a wrong-kind errorless response, get decompilation and
count functions raise `ValueError` and get references fails its `assert`
(`AssertionError`) — kinds distinguishable from the backend-error type
`RevaToolException` — but list functions raises `RevaToolException`, the very
kind used for backend-reported errors, and rename variable performs no kind
validation at all, returning its confirmation string. -/
theorem c4_kind_mismatch_amended
    (r : RevaMessageResponse) (hne : hasError r = false)
    (h1 : r.payload.kind ≠ .getDecompilation)
    (h2 : r.payload.kind ≠ .getDefinedFunctionList)
    (h3 : r.payload.kind ≠ .getFunctionCount)
    (h4 : r.payload.kind ≠ .getReferences)
    (s aos new_name old_name cf : String) (a p ps : Int)
    (ha : pyIntBase16 s = some a) (hpos : 0 < a) (hp : p ≠ 0) :
    (get_decompilation_for_function s (constBackend r)).out
      = .error (.valueError
          ("Expected a RevaGetDecompilationResponse, got another response kind")) ∧
    (get_defined_function_count (constBackend r)).out
      = .error (.valueError
          ("Expected a RevaGetFunctionCountResponse, got another response kind")) ∧
    (get_references aos (constBackend r)).out
      = .error (.assertionError
          ("Expected a RevaGetReferencesResponse, got another response kind")) ∧
    (get_defined_function_list_paginated (.int p) (.int ps) (constBackend r)).out
      = .error (.revaToolException
          ("Expected a RevaGetDefinedFunctionListResponse, got another response kind")) ∧
    (rename_variable_in_function new_name old_name cf (constBackend r)).out
      = .ok ("Renamed " ++ old_name ++ " to " ++ new_name ++ " in " ++ cf) := by
  refine ⟨?_, ?_, ?_, ?_, ?_⟩
  · rw [decomp_addr_eq ha hpos]
    simp only [constBackend]
    rw [if_neg (by simp [hne])]
    cases hpl : r.payload with
    | getDecompilation f sig addr d v => exact absurd (by rw [hpl]; rfl) h1
    | getDefinedFunctionList fl => rfl
    | getFunctionCount cnt => rfl
    | renameVariable => rfl
    | getReferences rto rfrom => rfl
  · rw [count_eq]
    simp only [constBackend]
    rw [if_neg (by simp [hne])]
    cases hpl : r.payload with
    | getFunctionCount cnt => exact absurd (by rw [hpl]; rfl) h3
    | getDecompilation f sig addr d v => rfl
    | getDefinedFunctionList fl => rfl
    | renameVariable => rfl
    | getReferences rto rfrom => rfl
  · rw [refs_eq]
    simp only [constBackend]
    rw [if_neg (by simp [hne])]
    cases hpl : r.payload with
    | getReferences rto rfrom => exact absurd (by rw [hpl]; rfl) h4
    | getDecompilation f sig addr d v => rfl
    | getDefinedFunctionList fl => rfl
    | getFunctionCount cnt => rfl
    | renameVariable => rfl
  · rw [list_int_eq, if_neg hp]
    simp only [constBackend]
    rw [if_neg (by simp [hne])]
    cases hpl : r.payload with
    | getDefinedFunctionList fl => exact absurd (by rw [hpl]; rfl) h2
    | getDecompilation f sig addr d v => rfl
    | getFunctionCount cnt => rfl
    | renameVariable => rfl
    | getReferences rto rfrom => rfl
  · rw [rename_eq]
    simp only [constBackend]
    rw [if_neg (by simp [hne])]

theorem c4_kind_mismatch_amended_witness :
    (get_decompilation_for_function ("10") (constBackend okRenameResp)).out
      = .error (.valueError
          ("Expected a RevaGetDecompilationResponse, got another response kind")) ∧
    (get_defined_function_count (constBackend okRenameResp)).out
      = .error (.valueError
          ("Expected a RevaGetFunctionCountResponse, got another response kind")) ∧
    (get_references ("sym") (constBackend okRenameResp)).out
      = .error (.assertionError
          ("Expected a RevaGetReferencesResponse, got another response kind")) ∧
    (get_defined_function_list_paginated (.int 1) (.int 20)
        (constBackend okRenameResp)).out
      = .error (.revaToolException
          ("Expected a RevaGetDefinedFunctionListResponse, got another response kind")) ∧
    (rename_variable_in_function ("y") ("x") ("G") (constBackend okRenameResp)).out
      = .ok ("Renamed x to y in G") :=
  c4_kind_mismatch_amended okRenameResp rfl (by decide) (by decide) (by decide)
    (by decide) ("10") ("sym") ("y") ("x") ("G") 16 1 20 (by decide) (by decide)
    (by decide)

theorem list_page_zero_of_coerce (pv ps : PyVal)
    (backend : RevaMessage → RevaMessageResponse)
    (hpv : coerceIntArg pv = .ok 0) :
    (get_defined_function_list_paginated pv ps backend).sent = [] ∧
    ∃ m, (get_defined_function_list_paginated pv ps backend).out
      = .error (.valueError m) := by
  simp only [get_defined_function_list_paginated, hpv]
  cases hps : coerceIntArg ps with
  | error e =>
    obtain ⟨m, hm⟩ := coerceIntArg_error hps
    subst hm
    exact ⟨rfl, m, rfl⟩
  | ok p =>
    exact ⟨rfl, "`page` is 1 indexed, page cannot be 0", rfl⟩

/-- C5: calling list functions with page 0 — whether as the integer 0 or as
a numeric string coercing to 0 — raises a local `ValueError`
(invalid-argument) and submits nothing, for every pageSize argument and
every backend. -/
theorem c5_page_zero_rejected_locally
    (ps : PyVal) (backend : RevaMessage → RevaMessageResponse)
    (s : String) (hs : pyIntBase10 s = some 0) :
    ((get_defined_function_list_paginated (.int 0) ps backend).sent = [] ∧
      ∃ m, (get_defined_function_list_paginated (.int 0) ps backend).out
        = .error (.valueError m)) ∧
    ((get_defined_function_list_paginated (.str s) ps backend).sent = [] ∧
      ∃ m, (get_defined_function_list_paginated (.str s) ps backend).out
        = .error (.valueError m)) := by
  refine ⟨list_page_zero_of_coerce _ _ _ rfl, list_page_zero_of_coerce _ _ _ ?_⟩
  have h' : coerceIntArg (.str s) = (match pyIntBase10 s with
      | some n => (Except.ok n : Except PyError Int)
      | none => Except.error (.valueError
          ("invalid literal for int() with base 10: " ++ s))) := rfl
  rw [h', hs]

theorem c5_page_zero_rejected_locally_witness :
    ((get_defined_function_list_paginated (.int 0) (.int 20)
        (constBackend functionListRespMain)).sent = [] ∧
      ∃ m, (get_defined_function_list_paginated (.int 0) (.int 20)
        (constBackend functionListRespMain)).out = .error (.valueError m)) ∧
    ((get_defined_function_list_paginated (.str ("0")) (.int 20)
        (constBackend functionListRespMain)).sent = [] ∧
      ∃ m, (get_defined_function_list_paginated (.str ("0")) (.int 20)
        (constBackend functionListRespMain)).out = .error (.valueError m)) :=
  c5_page_zero_rejected_locally (.int 20) (constBackend functionListRespMain)
    ("0") (by decide)

/-- C6 counterexample: page = −1 (< 1) with pageSize 20 is not rejected
locally: the request is submitted to the backend and the call returns the
backend's list, contradicting the claim that every page < 1 fails with a
locally-detected invalid-argument error before submission. -/
theorem c6_counterexample :
    get_defined_function_list_paginated (.int (-1)) (.int 20)
        (constBackend functionListRespMain)
      = ⟨[RevaMessage.getDefinedFunctionList (-1) 20], .ok (["main"])⟩ := rfl

/-- C6 amended: the only local page/pageSize validation is the `page == 0`
check: page 0 raises `ValueError` with nothing submitted, while every
nonzero page (negatives included) with any coerced pageSize (zero and
negatives included) is submitted to the backend as-is. -/
theorem c6_local_validation_amended (p ps : Int)
    (backend : RevaMessage → RevaMessageResponse) :
    (p = 0 → get_defined_function_list_paginated (.int p) (.int ps) backend
        = ⟨[], .error (.valueError ("`page` is 1 indexed, page cannot be 0"))⟩) ∧
    (p ≠ 0 → (get_defined_function_list_paginated (.int p) (.int ps) backend).sent
        = [RevaMessage.getDefinedFunctionList p ps]) := by
  constructor
  · intro h0
    subst h0
    rw [list_int_eq, if_pos rfl]
  · intro hne
    rw [list_int_eq, if_neg hne]
    by_cases hb : hasError (backend (RevaMessage.getDefinedFunctionList p ps)) = true
    · rw [if_pos hb]
    · rw [if_neg hb]
      cases (backend (RevaMessage.getDefinedFunctionList p ps)).payload <;> rfl

theorem c6_local_validation_amended_witness :
    ((-1 : Int) ≠ 0) ∧
    (get_defined_function_list_paginated (.int (-1)) (.int 0)
        (constBackend functionListRespMain)).sent
      = [RevaMessage.getDefinedFunctionList (-1) 0] :=
  ⟨by decide,
    (c6_local_validation_amended (-1) 0 (constBackend functionListRespMain)).2
      (by decide)⟩

/-- C7 counterexample: an empty old variable name is not rejected locally —
the rename request carrying the empty string is submitted to the backend —
and likewise an empty address-or-symbol for get references, contradicting
the claim that empty required strings are detected before submission. -/
theorem c7_counterexample :
    (rename_variable_in_function ("x") ("") ("f") (constBackend okRenameResp)).sent
        = [RevaMessage.renameVariable ("") ("x") ("f")] ∧
    (get_references ("") (constBackend emptyRefsResp)).sent
        = [RevaMessage.getReferences ("")] :=
  ⟨rfl, rfl⟩

/-- C7 amended: neither rename variable nor get references performs any
local argument validation: for all argument values — empty strings included —
exactly one request carrying the arguments verbatim is submitted to the
backend. -/
theorem c7_no_local_validation_amended
    (new_name old_name cf aos : String)
    (b1 b2 : RevaMessage → RevaMessageResponse) :
    (rename_variable_in_function new_name old_name cf b1).sent
        = [RevaMessage.renameVariable old_name new_name cf] ∧
    (get_references aos b2).sent = [RevaMessage.getReferences aos] := by
  constructor
  · rw [rename_eq]
    by_cases hb : hasError (b1 (RevaMessage.renameVariable old_name new_name cf)) = true
    · rw [if_pos hb]
    · rw [if_neg hb]
  · rw [refs_eq]
    by_cases hb : hasError (b2 (RevaMessage.getReferences aos)) = true
    · rw [if_pos hb]
    · rw [if_neg hb]
      cases (b2 (RevaMessage.getReferences aos)).payload <;> rfl

/-- C8 counterexample: the decompilation lookup for the well-formed address
string "10" (base 16: 16 > 0), delivered an errorless response whose address
is 17, returns "0x11" in its address field; re-parsed from hex that is 17,
not the input address 16.  The façade formats the response's address, not the
request's, so the claim fails whenever the backend does not echo the input. -/
theorem c8_counterexample :
    (get_decompilation_for_function ("10") (constBackend decompResp17)).out
      = .ok ⟨"f", "sig", "0x11", "code", []⟩ ∧
    pyIntBase16 ("10") = some 16 ∧
    pyIntBase16 ("0x11") = some 17 :=
  ⟨rfl, by decide, by decide⟩

/-- C8 amended: a successful decompilation lookup by a positive hex address
returns in its address field the hex rendering of the address carried by the
delivered response; re-parsed from hex it equals the response's address, and
hence equals the input address exactly when the backend echoes the request's
address. -/
theorem c8_address_roundtrip_amended
    (s : String) (a : Int) (ha : pyIntBase16 s = some a) (hpos : 0 < a)
    (f sig d : String) (v : List String) (b : Int)
    (backend : RevaMessage → RevaMessageResponse)
    (hresp : backend (RevaMessage.getDecompilation (some a) none)
      = ⟨none, .getDecompilation f sig b d v⟩) :
    (get_decompilation_for_function s backend).out = .ok ⟨f, sig, pyHex b, d, v⟩ ∧
    pyIntBase16 (pyHex b) = some b ∧
    (b = a → pyIntBase16 (pyHex b) = some a) := by
  refine ⟨?_, pyIntBase16_pyHex b, fun hba => by rw [pyIntBase16_pyHex b, hba]⟩
  rw [decomp_addr_eq ha hpos, hresp]
  rfl

theorem c8_address_roundtrip_amended_witness :
    (get_decompilation_for_function ("10") (constBackend decompResp17)).out
      = .ok ⟨"f", "sig", pyHex 17, "code", []⟩ ∧
    pyIntBase16 (pyHex 17) = some 17 ∧
    ((17 : Int) = 16 → pyIntBase16 (pyHex 17) = some 16) :=
  c8_address_roundtrip_amended ("10") 16 (by decide) (by decide) ("f") ("sig")
    ("code") [] 17 (constBackend decompResp17) rfl

/-- C9: a delivered get-references response of the correct kind with no
error description and empty references-to and references-from lists yields
the successful result with two empty lists; the no-references case raises no
error. -/
theorem c9_empty_references_ok
    (aos : String) (backend : RevaMessage → RevaMessageResponse)
    (hresp : backend (RevaMessage.getReferences aos)
      = ⟨none, .getReferences [] []⟩) :
    get_references aos backend
      = ⟨[RevaMessage.getReferences aos], .ok ⟨[], []⟩⟩ := by
  rw [refs_eq, hresp]
  rfl

theorem c9_empty_references_ok_witness :
    get_references ("sym2") (constBackend emptyRefsResp)
      = ⟨[RevaMessage.getReferences ("sym2")], .ok ⟨[], []⟩⟩ :=
  c9_empty_references_ok ("sym2") (constBackend emptyRefsResp) rfl

/-- C10: the argument normalisation of get_decompilation_for_function
populates exactly one of address and name for every string input: a string
parsing in base 16 to a positive value always becomes an address and never a
name (e.g. "deadbeef" becomes the address 0xdeadbeef, so a function of that
name cannot be looked up by name), a string parsing to a non-positive value
raises RevaToolException, any unparseable string — the empty string included
— becomes the name, and the neither-address-nor-name error branch is
unreachable for string inputs. -/
theorem c10_normalization_exactly_one :
    (∀ s : String,
      (∃ a, pyIntBase16 s = some a ∧ 0 < a
        ∧ normalizeDecompArg s = .ok (some a, none)) ∨
      (∃ a, pyIntBase16 s = some a ∧ a ≤ 0
        ∧ normalizeDecompArg s
          = .error (.revaToolException ("Address must be > 0 and in hex format"))) ∨
      (pyIntBase16 s = none ∧ normalizeDecompArg s = .ok (none, some s))) ∧
    normalizeDecompArg ("deadbeef") = .ok (some 3735928559, none) ∧
    normalizeDecompArg ("") = .ok (none, some ("")) ∧
    (∀ s p, normalizeDecompArg s = .ok p → ¬(p.1 = none ∧ p.2 = none)) := by
  refine ⟨?_, rfl, rfl, ?_⟩
  · intro s
    cases h : pyIntBase16 s with
    | some a =>
      by_cases hle : a ≤ 0
      · refine Or.inr (Or.inl ⟨a, rfl, hle, ?_⟩)
        simp only [normalizeDecompArg, h]
        rw [if_pos hle]
      · refine Or.inl ⟨a, rfl, by omega, ?_⟩
        simp only [normalizeDecompArg, h]
        rw [if_neg hle]
    | none =>
      refine Or.inr (Or.inr ⟨rfl, ?_⟩)
      simp only [normalizeDecompArg, h]
  · intro s p hp
    cases h : pyIntBase16 s with
    | some a =>
      by_cases hle : a ≤ 0
      · rw [show normalizeDecompArg s
            = .error (.revaToolException ("Address must be > 0 and in hex format")) from by
          simp only [normalizeDecompArg, h]
          rw [if_pos hle]] at hp
        exact Except.noConfusion hp
      · rw [show normalizeDecompArg s
            = .ok ((some a : Option Int), (none : Option String)) from by
          simp only [normalizeDecompArg, h]
          rw [if_neg hle]] at hp
        simp only [Except.ok.injEq] at hp
        subst hp
        simp
    | none =>
      rw [show normalizeDecompArg s
          = .ok ((none : Option Int), (some s : Option String)) from by
        simp only [normalizeDecompArg, h]] at hp
      simp only [Except.ok.injEq] at hp
      subst hp
      simp

theorem c10_normalization_exactly_one_witness :
    ¬((((some (3735928559 : Int)), (none : Option String)).1 = none)
      ∧ (((some (3735928559 : Int)), (none : Option String)).2 = none)) :=
  c10_normalization_exactly_one.2.2.2 ("deadbeef") (some 3735928559, none) rfl
